import Mathlib

/-!
Verification of the scheduling fee/encoding module
(`src/common/libs/scheduling/index.ts`).

Shallow embedding conventions:
- `BN` (bn.js arbitrary-precision integers) is modelled as `Int`; bn.js
  supports negative values and the source checks `lt(new BN(0))`.
- A TypeScript parameter of type `BN | null` is modelled as `Option Int`;
  JavaScript truthiness of a `BN` value is object truthiness, so `!x` is
  `x = none` (a zero `BN` object is still truthy).
- `windowStart` has TypeScript type `any` and in practice holds a plain
  JavaScript number; `!windowStart` is then numeric falsiness, true when
  the value is absent OR the number 0 (`jsNumFalsy`).
- The external ABI encoders (`abi.simpleEncode`,
  `RequestFactory.validateRequestParams.encodeInput`) are black boxes per
  the module boundary; the encoded payload is modelled as a structure
  capturing exactly the signature and arguments handed to the encoder.
-/

/-- Binary length of a natural number, with structural fuel (the fuel is
only there so the kernel can evaluate it; `n` itself is always enough fuel
since the binary length of `n` never exceeds `n`). -/
def natBitLengthAux : Nat → Nat → Nat
  | 0, _ => 0
  | fuel + 1, n => if n = 0 then 0 else natBitLengthAux fuel (n / 2) + 1

/-- bn.js `bitLength()`: number of bits of the absolute value; 0 for 0. -/
def bnBitLength (x : Int) : Nat :=
  natBitLengthAux x.natAbs x.natAbs

/-- JavaScript falsiness of an optional number: absent or the number 0. -/
def jsNumFalsy : Option Int → Bool
  | none => true
  | some w => w == 0

/-- Modelled from the spec: the external `toBuffer` primitive
(`ethereumjs-util`, outside `src/`) that converts textual call data to raw
bytes before encoding. The spec treats the conversion as a black box; it is
modelled as a deterministic byte conversion of the text. -/
def toBufferModel (s : String) : List Nat :=
  s.data.map Char.toNat

/-- Modelled from the spec: `gasPriceToBase` from `../units` (outside
`src/`), converting a human-readable Gwei gas price to base units (wei),
i.e. multiplication by 10^9. -/
def gasPriceToBase (gwei : Int) : Int :=
  gwei * 10 ^ 9

namespace EAC_SCHEDULING_CONFIG

def DAPP_ADDRESS : String := "https://app.chronologic.network"

def SCHEDULE_GAS_LIMIT_FALLBACK : Int := 21000

/-- Gwei (a plain JavaScript number in the source). -/
def SCHEDULE_GAS_PRICE_FALLBACK : Int := 20

/-- $2 -/
def FEE : Int := 2242000000000000

def FEE_MULTIPLIER : Int := 2

def FUTURE_EXECUTION_COST : Int := 180000

def SCHEDULING_GAS_LIMIT : Int := 1500000

def WINDOW_SIZE_DEFAULT_TIME : Int := 10

def WINDOW_SIZE_DEFAULT_BLOCK : Int := 90

/-- The module-level `TIME_BOUNTY_MIN = new BN('1')` constant. -/
def TIME_BOUNTY_MIN : Int := 1

def TIME_BOUNTY_DEFAULT : Int := TIME_BOUNTY_MIN

/-- 900 ETH (`toWei('900', Units.ether.length - 1)` = 900 · 10^18). -/
def TIME_BOUNTY_MAX : Int := 900 * 10 ^ 18

def DEFAULT_SCHEDULING_METHOD : String := "time"

end EAC_SCHEDULING_CONFIG

/-- `calcEACFutureExecutionCost(callGas, callGasPrice, timeBounty)`. -/
def calcEACFutureExecutionCost (callGas callGasPrice : Int)
    (timeBounty : Option Int) : Int :=
  let totalGas := callGas + EAC_SCHEDULING_CONFIG.FUTURE_EXECUTION_COST
  let timeBounty :=
    match timeBounty with
    | none => EAC_SCHEDULING_CONFIG.TIME_BOUNTY_MIN
    | some t => t
  timeBounty + EAC_SCHEDULING_CONFIG.FEE * EAC_SCHEDULING_CONFIG.FEE_MULTIPLIER
    + totalGas * callGasPrice

/-- `calcEACEndowment(callGas, callValue, callGasPrice, timeBounty)`. -/
def calcEACEndowment (callGas callValue callGasPrice : Option Int)
    (timeBounty : Int) : Int :=
  let callValue := callValue.getD 0
  callValue +
    calcEACFutureExecutionCost
      (callGas.getD EAC_SCHEDULING_CONFIG.SCHEDULE_GAS_LIMIT_FALLBACK)
      (callGasPrice.getD (gasPriceToBase EAC_SCHEDULING_CONFIG.SCHEDULE_GAS_PRICE_FALLBACK))
      (some timeBounty)

/-- `calcEACTotalCost(callGas, gasPrice, callGasPrice, timeBounty)`. -/
def calcEACTotalCost (callGas gasPrice callGasPrice : Int)
    (timeBounty : Option Int) : Int :=
  let deployCost := gasPrice * EAC_SCHEDULING_CONFIG.SCHEDULING_GAS_LIMIT
  let futureExecutionCost := calcEACFutureExecutionCost callGas callGasPrice timeBounty
  deployCost + futureExecutionCost

/-- The payload handed to the black-box ABI encoder by `getScheduleData`:
signature string, address, call-data bytes and the `uint[8]` tuple. -/
structure ScheduleCallPayload where
  signature : String
  toAddress : String
  callData : List Nat
  uintArgs : List Int
deriving Repr, DecidableEq

/-- `getScheduleData(toAddress, callData, callGas, callValue, windowSize,
windowStart, callGasPrice, timeBounty, requiredDeposit)`. Returns `none`
exactly where the source falls through its validation `return;`. -/
def getScheduleData (toAddress : String) (callData : String ⊕ List Nat)
    (callGas callValue windowSize : Option Int) (windowStart : Option Int)
    (callGasPrice timeBounty requiredDeposit : Option Int) :
    Option ScheduleCallPayload :=
  let requiredDeposit : Int :=
    match requiredDeposit with
    | none => 0
    | some d => if d < 0 then 0 else d
  let callDataBuf : List Nat :=
    match callData with
    | Sum.inl s => toBufferModel s
    | Sum.inr b => b
  match callValue, callGas, callGasPrice, windowSize, timeBounty with
  | some callValue, some callGas, some callGasPrice, some windowSize, some timeBounty =>
    if jsNumFalsy windowStart ∨ timeBounty < 0 ∨ callGasPrice < 0 ∨
        windowSize < 0 ∨ 256 < bnBitLength windowSize then
      none
    else
      some
        { signature := "schedule(address,bytes,uint[8]):(address)"
          toAddress := toAddress
          callData := callDataBuf
          uintArgs := [callGas, callValue, windowSize, windowStart.getD 0,
            callGasPrice, EAC_SCHEDULING_CONFIG.FEE, timeBounty, requiredDeposit] }
  | _, _, _, _, _ => none

/-- The local `Errors` table of `parseSchedulingParametersValidity`. -/
def schedulingValidityErrorNames : List String :=
  ["InsufficientEndowment",
   "ReservedWindowBiggerThanExecutionWindow",
   "InvalidTemporalUnit",
   "ExecutionWindowTooSoon",
   "CallGasTooHigh",
   "EmptyToAddress"]

/-- `parseSchedulingParametersValidity(isValid)`: pushes `Errors[index]`
for every false flag, in input order. (`"undefined"` stands for the JS
`undefined` read past the end of `Errors`; unreachable for 6 flags.) -/
def parseSchedulingParametersValidity (isValid : List Bool) : List String :=
  isValid.enum.filterMap fun p =>
    if p.2 = false then some (schedulingValidityErrorNames.getD p.1 "undefined")
    else none

/-- The record handed to the black-box encoder
`RequestFactory.validateRequestParams.encodeInput`. Modelled from the spec:
`RequestFactory` lives outside `src/` and its encoder is a black box, so
the encoded payload is modelled as the capture of the encoder's input. -/
structure ValidateRequestParamsPayload where
  addressArgs : List String
  uintArgs : List Int
  callData : String
  endowment : Int
deriving Repr, DecidableEq

/-- `getValidateRequestParamsData(toAddress, callData, callGas, callValue,
windowSize, windowStart, gasPrice, timeBounty, requiredDeposit,
isTimestamp, endowment, fromAddress)`. -/
def getValidateRequestParamsData (toAddress : String) (callData : String)
    (callGas : Int) (callValue : Int) (windowSize : Option Int)
    (windowStart : Int) (gasPrice : Int) (timeBounty : Int)
    (requiredDeposit : Int) (isTimestamp : Bool) (endowment : Int)
    (fromAddress : String) : ValidateRequestParamsPayload :=
  let windowSize := windowSize.getD 0
  let temporalUnit : Int := if isTimestamp then 2 else 1
  let freezePeriod : Int := if isTimestamp then 3 * 60 else 10
  let reservedWindowSize : Int := if isTimestamp then 5 * 60 else 16
  let claimWindowSize : Int := if isTimestamp then 60 * 60 else 255
  let feeRecipient : String := "0x0"
  { addressArgs := [fromAddress, feeRecipient, toAddress]
    uintArgs := [EAC_SCHEDULING_CONFIG.FEE, timeBounty, claimWindowSize,
      freezePeriod, reservedWindowSize, temporalUnit, windowSize, windowStart,
      callGas, callValue, gasPrice, requiredDeposit]
    callData := callData
    endowment := endowment }

/-- `getTXDetailsCheckURL(txHash)`. -/
def getTXDetailsCheckURL (txHash : String) : String :=
  EAC_SCHEDULING_CONFIG.DAPP_ADDRESS ++ "/awaiting/scheduler/" ++ txHash

/-! ## Theorems about the claims -/

/-- C3: `calcEACFutureExecutionCost` returns
`effectiveTimeBounty + FEE × FEE_MULTIPLIER + (callGas + FUTURE_EXECUTION_COST) × callGasPrice`,
where the effective time bounty is the given one or `TIME_BOUNTY_MIN` when
absent; it is total, and the `none` case coincides with passing
`TIME_BOUNTY_MIN`. -/
theorem calcEACFutureExecutionCost_spec (callGas callGasPrice : Int)
    (timeBounty : Option Int) :
    calcEACFutureExecutionCost callGas callGasPrice timeBounty =
      timeBounty.getD EAC_SCHEDULING_CONFIG.TIME_BOUNTY_MIN +
        EAC_SCHEDULING_CONFIG.FEE * EAC_SCHEDULING_CONFIG.FEE_MULTIPLIER +
        (callGas + EAC_SCHEDULING_CONFIG.FUTURE_EXECUTION_COST) * callGasPrice ∧
    calcEACFutureExecutionCost callGas callGasPrice none =
      calcEACFutureExecutionCost callGas callGasPrice
        (some EAC_SCHEDULING_CONFIG.TIME_BOUNTY_MIN) := by
  constructor
  · cases timeBounty <;> rfl
  · rfl

/-- C4: `calcEACEndowment` defaults `callValue` to 0, `callGas` to
`SCHEDULE_GAS_LIMIT_FALLBACK` (21000) and `callGasPrice` to
`gasPriceToBase SCHEDULE_GAS_PRICE_FALLBACK` (20 Gwei = 2·10^10 wei), and
returns the resolved call value plus the future execution cost at the
resolved arguments. -/
theorem calcEACEndowment_spec (callGas callValue callGasPrice : Option Int)
    (timeBounty : Int) :
    calcEACEndowment callGas callValue callGasPrice timeBounty =
      callValue.getD 0 +
        calcEACFutureExecutionCost
          (callGas.getD EAC_SCHEDULING_CONFIG.SCHEDULE_GAS_LIMIT_FALLBACK)
          (callGasPrice.getD
            (gasPriceToBase EAC_SCHEDULING_CONFIG.SCHEDULE_GAS_PRICE_FALLBACK))
          (some timeBounty) ∧
    EAC_SCHEDULING_CONFIG.SCHEDULE_GAS_LIMIT_FALLBACK = 21000 ∧
    gasPriceToBase EAC_SCHEDULING_CONFIG.SCHEDULE_GAS_PRICE_FALLBACK = 20000000000 := by
  refine ⟨rfl, rfl, by norm_num [gasPriceToBase, EAC_SCHEDULING_CONFIG.SCHEDULE_GAS_PRICE_FALLBACK]⟩

/-- C5: `calcEACTotalCost` is the deployment cost
`gasPrice × SCHEDULING_GAS_LIMIT` plus the future execution cost, as exact
integer arithmetic; checked additionally at the spec's sample point
`callGas = 21000`, both gas prices `20·10^9`, `timeBounty = 1`. -/
theorem calcEACTotalCost_spec (callGas gasPrice callGasPrice : Int)
    (timeBounty : Option Int) :
    calcEACTotalCost callGas gasPrice callGasPrice timeBounty =
      gasPrice * EAC_SCHEDULING_CONFIG.SCHEDULING_GAS_LIMIT +
        calcEACFutureExecutionCost callGas callGasPrice timeBounty ∧
    calcEACTotalCost 21000 (20 * 10 ^ 9) (20 * 10 ^ 9) (some 1) =
      38504000000000001 := by
  exact ⟨rfl, by decide⟩

/-- C8: `parseSchedulingParametersValidity` on any 6 flags returns the
ordered subsequence of the fixed error-name table at the positions whose
flag is false; in particular all-true yields `[]` and
`[false, true, true, true, true, false]` yields
`InsufficientEndowment` then `EmptyToAddress`. -/
theorem parseSchedulingParametersValidity_spec :
    (∀ b0 b1 b2 b3 b4 b5 : Bool,
      parseSchedulingParametersValidity [b0, b1, b2, b3, b4, b5] =
        ([b0, b1, b2, b3, b4, b5].zip schedulingValidityErrorNames).filterMap
          (fun p => if p.1 then none else some p.2)) ∧
    parseSchedulingParametersValidity [true, true, true, true, true, true] = [] ∧
    parseSchedulingParametersValidity [false, true, true, true, true, false] =
      ["InsufficientEndowment", "EmptyToAddress"] := by
  refine ⟨fun b0 b1 b2 b3 b4 b5 => ?_, rfl, rfl⟩
  cases b0 <;> cases b1 <;> cases b2 <;> cases b3 <;> cases b4 <;> cases b5 <;> rfl

/-- C9: `getValidateRequestParamsData` derives temporalUnit = 2/1,
freezePeriod = 180 s / 10 blocks, reservedWindowSize = 300 s / 16 blocks,
claimWindowSize = 3600 s / 255 blocks from `isTimestamp`, and passes the
12 numeric arguments to the encoder in the order FEE, timeBounty,
claimWindowSize, freezePeriod, reservedWindowSize, temporalUnit,
windowSize, windowStart, callGas, callValue, gasPrice, requiredDeposit. -/
theorem getValidateRequestParamsData_spec (toAddress callData : String)
    (callGas callValue : Int) (windowSize : Option Int)
    (windowStart gasPrice timeBounty requiredDeposit : Int)
    (isTimestamp : Bool) (endowment : Int) (fromAddress : String) :
    (getValidateRequestParamsData toAddress callData callGas callValue
        windowSize windowStart gasPrice timeBounty requiredDeposit
        isTimestamp endowment fromAddress).uintArgs =
      [EAC_SCHEDULING_CONFIG.FEE, timeBounty,
       if isTimestamp then 3600 else 255,
       if isTimestamp then 180 else 10,
       if isTimestamp then 300 else 16,
       if isTimestamp then 2 else 1,
       windowSize.getD 0, windowStart, callGas, callValue, gasPrice,
       requiredDeposit] := by
  cases isTimestamp <;> rfl

/-- C10: a numeric `windowStart` of 0 is falsy in the presence check, so
`getScheduleData` yields no result whenever `windowStart` is the number 0,
whatever the other arguments. -/
theorem getScheduleData_zero_windowStart_none (toAddress : String)
    (callData : String ⊕ List Nat)
    (callGas callValue windowSize callGasPrice timeBounty requiredDeposit : Option Int) :
    getScheduleData toAddress callData callGas callValue windowSize (some 0)
      callGasPrice timeBounty requiredDeposit = none := by
  cases callValue <;> cases callGas <;> cases callGasPrice <;>
    cases windowSize <;> cases timeBounty <;>
    simp [getScheduleData, jsNumFalsy]

/-- C2: whenever `getScheduleData` produces a payload, the `uint[8]`
tuple handed to the encoder after the address and call data is, in order:
callGas, callValue, windowSize, windowStart, callGasPrice, FEE,
timeBounty, requiredDeposit. -/
theorem getScheduleData_tuple_order (toAddress : String)
    (callData : String ⊕ List Nat)
    (callGas callValue windowSize windowStart callGasPrice timeBounty requiredDeposit : Int)
    (p : ScheduleCallPayload) (hrd : 0 ≤ requiredDeposit)
    (h : getScheduleData toAddress callData (some callGas) (some callValue)
        (some windowSize) (some windowStart) (some callGasPrice)
        (some timeBounty) (some requiredDeposit) = some p) :
    p.uintArgs = [callGas, callValue, windowSize, windowStart, callGasPrice,
      EAC_SCHEDULING_CONFIG.FEE, timeBounty, requiredDeposit] := by
  simp only [getScheduleData] at h
  split at h
  · exact absurd h (by simp)
  · rw [Option.some.injEq] at h
    subst h
    simp [if_neg (not_lt.mpr hrd)]

/-- Witness for C2 at a concrete valid input. -/
theorem getScheduleData_tuple_order_witness :
    ScheduleCallPayload.uintArgs
        { signature := "schedule(address,bytes,uint[8]):(address)",
          toAddress := "0xabc", callData := [],
          uintArgs := [21000, 1, 10, 5, 1, 2242000000000000, 1, 0] } =
      [21000, 1, 10, 5, 1, EAC_SCHEDULING_CONFIG.FEE, 1, 0] :=
  getScheduleData_tuple_order "0xabc" (Sum.inr []) 21000 1 10 5 1 1 0
    { signature := "schedule(address,bytes,uint[8]):(address)",
      toAddress := "0xabc", callData := [],
      uintArgs := [21000, 1, 10, 5, 1, 2242000000000000, 1, 0] }
    (by norm_num) (by decide)

/-- C7: `requiredDeposit` is clamped, not rejected: a non-positive deposit
and an absent deposit both encode exactly as a zero deposit, the other
arguments held fixed. -/
theorem getScheduleData_deposit_clamped (toAddress : String)
    (callData : String ⊕ List Nat)
    (callGas callValue windowSize windowStart callGasPrice timeBounty : Option Int)
    (d : Int) (hd : d ≤ 0) :
    getScheduleData toAddress callData callGas callValue windowSize windowStart
        callGasPrice timeBounty (some d) =
      getScheduleData toAddress callData callGas callValue windowSize windowStart
        callGasPrice timeBounty (some 0) ∧
    getScheduleData toAddress callData callGas callValue windowSize windowStart
        callGasPrice timeBounty none =
      getScheduleData toAddress callData callGas callValue windowSize windowStart
        callGasPrice timeBounty (some 0) := by
  have hcl : (if d < 0 then (0 : Int) else d) = 0 := by split <;> omega
  constructor <;> simp only [getScheduleData, hcl, if_neg (lt_irrefl (0 : Int))]

/-- Witness for C7: `requiredDeposit = -5` encodes identically to `0`. -/
theorem getScheduleData_deposit_clamped_witness :
    (-5 : Int) ≤ 0 ∧
    (getScheduleData "0xabc" (Sum.inr []) (some 21000) (some 1) (some 10)
        (some 5) (some 1) (some 1) (some (-5)) =
      getScheduleData "0xabc" (Sum.inr []) (some 21000) (some 1) (some 10)
        (some 5) (some 1) (some 1) (some 0) ∧
    getScheduleData "0xabc" (Sum.inr []) (some 21000) (some 1) (some 10)
        (some 5) (some 1) (some 1) none =
      getScheduleData "0xabc" (Sum.inr []) (some 21000) (some 1) (some 10)
        (some 5) (some 1) (some 1) (some 0)) :=
  ⟨by norm_num,
   getScheduleData_deposit_clamped "0xabc" (Sum.inr []) (some 21000) (some 1)
     (some 10) (some 5) (some 1) (some 1) (-5) (by norm_num)⟩

/-- C6: `calcEACEndowment` is monotonically non-decreasing in each of
callValue, callGas, callGasPrice and timeBounty individually, over
non-negative inputs (present optional arguments assumed non-negative). -/
theorem calcEACEndowment_monotone (callGas callValue callGasPrice : Option Int)
    (timeBounty : Int)
    (hg : ∀ x, callGas = some x → 0 ≤ x)
    (hp : ∀ x, callGasPrice = some x → 0 ≤ x) :
    (∀ v1 v2, v1 ≤ v2 →
      calcEACEndowment callGas (some v1) callGasPrice timeBounty ≤
        calcEACEndowment callGas (some v2) callGasPrice timeBounty) ∧
    (∀ g1 g2, 0 ≤ g1 → g1 ≤ g2 →
      calcEACEndowment (some g1) callValue callGasPrice timeBounty ≤
        calcEACEndowment (some g2) callValue callGasPrice timeBounty) ∧
    (∀ p1 p2, 0 ≤ p1 → p1 ≤ p2 →
      calcEACEndowment callGas callValue (some p1) timeBounty ≤
        calcEACEndowment callGas callValue (some p2) timeBounty) ∧
    (∀ t1 t2, t1 ≤ t2 →
      calcEACEndowment callGas callValue callGasPrice t1 ≤
        calcEACEndowment callGas callValue callGasPrice t2) := by
  have hgr : 0 ≤ callGas.getD EAC_SCHEDULING_CONFIG.SCHEDULE_GAS_LIMIT_FALLBACK := by
    cases callGas with
    | none => norm_num [EAC_SCHEDULING_CONFIG.SCHEDULE_GAS_LIMIT_FALLBACK]
    | some x => exact hg x rfl
  have hpr : 0 ≤ callGasPrice.getD
      (gasPriceToBase EAC_SCHEDULING_CONFIG.SCHEDULE_GAS_PRICE_FALLBACK) := by
    cases callGasPrice with
    | none =>
        norm_num [gasPriceToBase, EAC_SCHEDULING_CONFIG.SCHEDULE_GAS_PRICE_FALLBACK]
    | some x => exact hp x rfl
  refine ⟨fun v1 v2 h => ?_, fun g1 g2 h0 h => ?_, fun p1 p2 h0 h => ?_,
    fun t1 t2 h => ?_⟩ <;>
    simp only [calcEACEndowment, calcEACFutureExecutionCost, Option.getD_some]
  · omega
  · have := mul_le_mul_of_nonneg_right
      (add_le_add_right h EAC_SCHEDULING_CONFIG.FUTURE_EXECUTION_COST) hpr
    omega
  · have h1 : 0 ≤ callGas.getD EAC_SCHEDULING_CONFIG.SCHEDULE_GAS_LIMIT_FALLBACK +
        EAC_SCHEDULING_CONFIG.FUTURE_EXECUTION_COST := by
      have : (0:Int) ≤ EAC_SCHEDULING_CONFIG.FUTURE_EXECUTION_COST := by
        norm_num [EAC_SCHEDULING_CONFIG.FUTURE_EXECUTION_COST]
      omega
    have := mul_le_mul_of_nonneg_left h h1
    omega
  · omega

/-- Witness for C6 at concrete inputs: raising callValue from 5 to 7 with
absent callGas/callGasPrice does not decrease the endowment. -/
theorem calcEACEndowment_monotone_witness :
    calcEACEndowment none (some 5) none 1 ≤ calcEACEndowment none (some 7) none 1 :=
  (calcEACEndowment_monotone none (some 5) none 1
      (fun x h => Option.noConfusion h) (fun x h => Option.noConfusion h)).1
    5 7 (by norm_num)

/-- The no-result condition of the schedule-call encoder exactly as the
spec claims it (claim side, for comparison with the source behaviour):
one of the six required fields absent, or timeBounty / callGasPrice /
windowSize negative, or windowSize over 256 bits. Argument order follows
the source parameter order. -/
def claimedScheduleNoResultCond
    (callGas callValue windowSize windowStart callGasPrice timeBounty : Option Int) : Bool :=
  callValue.isNone || callGas.isNone || callGasPrice.isNone ||
  windowStart.isNone || windowSize.isNone || timeBounty.isNone ||
  (match timeBounty with | some t => decide (t < 0) | none => false) ||
  (match callGasPrice with | some p => decide (p < 0) | none => false) ||
  (match windowSize with
   | some w => decide (w < 0) || decide (256 < bnBitLength w)
   | none => false)

/-- Counterexample to C1 as stated: with `windowStart` the number 0 and
every condition the claim lists satisfied (all fields present, nothing
negative, windowSize within 256 bits), `getScheduleData` still yields no
result. -/
theorem getScheduleData_claimed_cond_counterexample :
    claimedScheduleNoResultCond (some 21000) (some 1) (some 10) (some 0)
      (some 1) (some 1) = false ∧
    getScheduleData "0xabc" (Sum.inr []) (some 21000) (some 1) (some 10)
      (some 0) (some 1) (some 1) (some 0) = none := by
  decide

/-- C1 (amended): `getScheduleData` yields no result exactly when one of
callValue, callGas, callGasPrice, windowStart, windowSize, timeBounty is
absent, or windowStart is the number 0, or timeBounty is negative, or
callGasPrice is negative, or windowSize is negative or over 256 bits;
otherwise it produces an encoded payload. -/
theorem getScheduleData_none_iff (toAddress : String)
    (callData : String ⊕ List Nat)
    (callGas callValue windowSize windowStart callGasPrice timeBounty requiredDeposit : Option Int) :
    getScheduleData toAddress callData callGas callValue windowSize windowStart
        callGasPrice timeBounty requiredDeposit = none ↔
      (callValue = none ∨ callGas = none ∨ callGasPrice = none ∨
       windowStart = none ∨ windowStart = some 0 ∨ windowSize = none ∨
       timeBounty = none ∨
       (∃ t, timeBounty = some t ∧ t < 0) ∨
       (∃ p, callGasPrice = some p ∧ p < 0) ∨
       (∃ w, windowSize = some w ∧ (w < 0 ∨ 256 < bnBitLength w))) := by
  cases callValue with
  | none => simp [getScheduleData]
  | some cv =>
  cases callGas with
  | none => simp [getScheduleData]
  | some cg =>
  cases callGasPrice with
  | none => simp [getScheduleData]
  | some cgp =>
  cases windowSize with
  | none => simp [getScheduleData]
  | some ws =>
  cases timeBounty with
  | none => simp [getScheduleData]
  | some tb =>
  cases windowStart with
  | none => simp [getScheduleData, jsNumFalsy]
  | some w =>
    by_cases hw : w = 0
    · subst hw
      simp [getScheduleData, jsNumFalsy]
    · have hfal : jsNumFalsy (some w) = false := by simp [jsNumFalsy, hw]
      simp only [getScheduleData, hfal, Bool.false_eq_true, false_or,
        Option.some.injEq, reduceCtorEq, exists_eq_left', or_self_left]
      split
      · rename_i hcond
        simp only [true_iff]
        tauto
      · rename_i hcond
        push_neg at hcond
        simp only [reduceCtorEq, false_iff, hw]
        push_neg
        tauto
